import Mathlib

/-!
Verification of the APS Summit scraping tool (ExtractAbstracts.py,
WebScraper.py, ExtractFromSessions.py, ExtractFilteredSessions.py).

Strings are modelled as lists of characters (`Str`).  The HTML parsing and
regex engines are external collaborators: each extraction strategy of the
source is embedded as a function of the candidate texts that the parser or
regex engine would hand it, while every filter, bound, cascade and
persistence decision taken by the Python code itself is reproduced exactly.
-/

namespace APS

/-- Strings are modelled as lists of characters. -/
abbrev Str := List Char

/-- Python `str.lower()` restricted to the ASCII range, as applied by the
source to title and abstract text (`Char.toLower` maps only A-Z). -/
def pyLower (s : Str) : Str := s.map Char.toLower

/-- Python `str.strip()` on ASCII whitespace: drop leading and trailing
whitespace characters. -/
def pyStrip (s : Str) : Str :=
  ((s.dropWhile Char.isWhitespace).reverse.dropWhile Char.isWhitespace).reverse

/-- Boolean substring test: `contains_sub needle hay` is true when `needle`
occurs contiguously inside `hay`.  This is the semantics of searching for a
regex-escaped literal keyword with `re.search`. -/
def contains_sub (needle : Str) : Str → Bool
  | [] => needle.isPrefixOf []
  | c :: t => needle.isPrefixOf (c :: t) || contains_sub needle t

theorem contains_sub_iff_infix (needle : Str) : ∀ hay : Str,
    contains_sub needle hay = true ↔ needle <:+: hay := by
  intro hay
  induction hay with
  | nil =>
    simp [contains_sub]
  | cons c t ih =>
    simp only [contains_sub, Bool.or_eq_true, List.isPrefixOf_iff_prefix, ih,
      List.infix_cons_iff]

/-- The fixed keyword vocabulary `SUPERCONDUCTING_QUBIT_KEYWORDS`
(ExtractAbstracts.py lines 15-45; identical lists appear in WebScraper.py and
ExtractFromSessions.py). -/
def SUPERCONDUCTING_QUBIT_KEYWORDS : List Str :=
  ["superconducting qubit".toList,
   "transmon".toList,
   "fluxonium".toList,
   "josephson junction".toList,
   "josephson".toList,
   "circuit qed".toList,
   "cqed".toList,
   "cavity qed".toList,
   "quasiparticle".toList,
   "readout resonator".toList,
   "microwave resonator".toList,
   "parametric amplifier".toList,
   "jpa".toList,
   "jtwpa".toList,
   "purcell".toList,
   "two-level system".toList,
   "tls".toList,
   "andreev".toList,
   "coherence time".toList,
   "t1".toList,
   "t2".toList,
   "cat qubit".toList,
   "kerr cat".toList,
   "gralmonium".toList,
   "granular aluminium".toList,
   "squid".toList,
   "quarton".toList,
   "cz gate".toList,
   "cross resonance".toList]

/-- `is_superconducting_qubit_related` (ExtractAbstracts.py lines 157-167):
lowercase the concatenation of title, a space, and abstract, then search it
for the alternation of the regex-escaped keywords; since every keyword is an
escaped literal, the regex search succeeds exactly when some keyword occurs
as a substring. -/
def is_superconducting_qubit_related (title abstract : Str) : Bool :=
  let combined_text := pyLower (title ++ ' ' :: abstract)
  SUPERCONDUCTING_QUBIT_KEYWORDS.any (fun k => contains_sub k combined_text)

/-!
## Field extraction cascade (`extract_talk_fields`)

The HTML parser (BeautifulSoup) is an external collaborator.  A parsed
document is abstracted as the candidate texts each strategy of
`extract_talk_fields` (ExtractAbstracts.py lines 55-155, identical in
ExtractFromSessions.py lines 65-165) would read from the tree; every guard,
length bound, truncation and cascade decision of the Python code is then
reproduced exactly on those candidates.
-/

/-- Abstraction of a parsed HTML document, as consumed by
`extract_talk_fields`:
* `titleCandidates` — for each selector of the title list, `get_text` of the
  first matching element (selectors whose element is missing contribute the
  empty string, which `guess_text` skips);
* `s1_heading` — whether an abstract heading element exists
  (`soup.find(... "abstract" in tag text ...)`);
* `s1_candidates` — `get_text` of the elements `find_all_next` yields after
  that heading, in order (the source caps the scan at 50 elements);
* `s2_candidates` — `get_text` of the abstract/description containers
  returned by `soup.select`, in order;
* `s3_candidates` — `get_text` of the next sibling of each "Abstract:" label
  parent that has one, in order;
* `s4_match` — `m.group(1).strip()` for the first full-text regex pattern
  that matches, when any does;
* `authorsByPattern` — parent text of the first author/presenter label
  match, when any pattern matched;
* `authorSiblings` — texts of the siblings following the title element
  (the source scans at most 5). -/
structure Doc where
  titleCandidates : List Str
  s1_heading : Bool
  s1_candidates : List Str
  s2_candidates : List Str
  s3_candidates : List Str
  s4_match : Option Str
  authorsByPattern : Option Str
  authorSiblings : List Str
deriving DecidableEq

/-- The record returned by `extract_talk_fields`: exactly the four keys
`url`, `title`, `authors`, `abstract`. -/
structure TalkRecord where
  url : Str
  title : Str
  authors : Str
  abstract : Str
deriving DecidableEq

/-- `guess_text` (ExtractAbstracts.py lines 47-53): return the text of the
first selector whose element exists and has non-empty text, else the empty
string. -/
def guess_text (cands : List Str) : Str :=
  (cands.find? (fun t => !t.isEmpty)).getD []

/-- Acceptance test of strategies 1 and 2:
`if txt and len(txt) > 50 and len(txt) < 5000`. -/
def s12_ok (t : Str) : Bool :=
  !t.isEmpty && decide (50 < t.length) && decide (t.length < 5000)

/-- Acceptance test of strategy 3: `if txt and len(txt) > 50`
(no upper bound in the source). -/
def s3_ok (t : Str) : Bool :=
  !t.isEmpty && decide (50 < t.length)

/-- Strategy 1 (lines 75-83): if an abstract heading exists, the first of at
most 50 following texts with `50 < len < 5000`. -/
def strategy1 (d : Doc) : Option Str :=
  if d.s1_heading then (d.s1_candidates.take 50).find? s12_ok else none

/-- Strategy 2 (lines 85-96): the first abstract-container text with
`50 < len < 5000`. -/
def strategy2 (d : Doc) : Option Str :=
  d.s2_candidates.find? s12_ok

/-- Strategy 3 (lines 98-108): the first label-adjacent sibling text with
`len > 50`; the source imposes no upper length bound here. -/
def strategy3 (d : Doc) : Option Str :=
  d.s3_candidates.find? s3_ok

/-- Strategy 4 (lines 110-124): the stripped capture of the first matching
full-text regex, truncated to 2000 characters when longer; the source
imposes no lower length bound here. -/
def strategy4 (d : Doc) : Option Str :=
  d.s4_match.map (fun m => m.take 2000)

/-- Abstract resolution of `extract_talk_fields` (lines 72-124): strategies
run in order and each later strategy runs only when `abstract` is still
empty (each of strategies 1-3 only ever stores a non-empty text, and
strategy 4 is last, so the falsy-test cascade of the source coincides with
first-some selection). -/
def resolve_abstract (d : Doc) : Str :=
  match strategy1 d with
  | some t => t
  | none =>
    match strategy2 d with
    | some t => t
    | none =>
      match strategy3 d with
      | some t => t
      | none =>
        match strategy4 d with
        | some t => t
        | none => []

/-- Authors resolution (lines 126-148): the enclosing text of the first
author/presenter label when one matched and is non-empty, else the first of
at most 5 title siblings whose text is non-empty and shorter than 200
characters, else empty. -/
def resolve_authors (d : Doc) : Str :=
  let byPattern := d.authorsByPattern.getD []
  if !byPattern.isEmpty then byPattern
  else ((d.authorSiblings.take 5).find?
    (fun t => !t.isEmpty && decide (t.length < 200))).getD []

/-- `extract_talk_fields` (ExtractAbstracts.py lines 55-155): total in the
document and url, returns the four-field record with the url passed through
unchanged. -/
def extract_talk_fields (d : Doc) (url : Str) : TalkRecord :=
  { url := url,
    title := guess_text d.titleCandidates,
    authors := resolve_authors d,
    abstract := resolve_abstract d }

/-!
## Validity gate and persistence
-/

/-- The challenge-page placeholder title tested by the source. -/
def JUST_A_MOMENT : Str := "Just a moment...".toList

/-- The validity gate applied before a record is kept (ExtractAbstracts.py
lines 243-245, ExtractFromSessions.py lines 934-935):
`if rec.get("title") and len(rec.get("title", "")) > 10` and then
`if rec.get("title") != "Just a moment..."`. -/
def accept_record (rec : TalkRecord) : Bool :=
  !rec.title.isEmpty && decide (10 < rec.title.length) &&
    decide (rec.title ≠ JUST_A_MOMENT)

/-- The accumulated `rows` list of ExtractAbstracts.main: each extracted
record is appended exactly when it passes the validity gate, so over a run
the persisted set is the filter of the extracted records. -/
def persist_rows (recs : List TalkRecord) : List TalkRecord :=
  recs.filter accept_record

/-- Per-session JSON append (ExtractFromSessions.py lines 948-963): read the
existing document, and append the record only when no stored record already
has its url. -/
def append_talk (existing : List TalkRecord) (rec : TalkRecord) : List TalkRecord :=
  if existing.any (fun t => t.url == rec.url) then existing
  else existing ++ [rec]

/-!
## Pacing
-/

/-- Pacing of ExtractAbstracts.main (lines 205-209): the delay before a
visit is keyed on `len(rows)`, the number of records accepted so far —
2000 ms when it is a positive multiple of 10, 500 ms when it is positive,
no delay otherwise. -/
def pause_before_visit_abstracts (rowsLen : Nat) : Nat :=
  if 0 < rowsLen ∧ rowsLen % 10 = 0 then 2000
  else if 0 < rowsLen then 500
  else 0

/-- `rows` grows only when the visited record passes the validity gate;
a skipped or failing visit leaves it unchanged (ExtractAbstracts.main). -/
def rows_len_after_visit (rowsLen : Nat) (accepted : Bool) : Nat :=
  if accepted then rowsLen + 1 else rowsLen

/-- Pacing of WebScraper.main (lines 702-709): keyed on the 1-based loop
index `idx`, which advances once per attempted visit — 2000 ms on every
10th attempt after the first, 500 ms on other attempts after the first. -/
def pause_before_visit_webscraper (idx : Nat) : Nat :=
  if 1 < idx ∧ idx % 10 = 0 then 2000
  else if 1 < idx then 500
  else 0

/-- Pacing of ExtractFromSessions.main (lines 612-617): keyed on
`valid_sessions`, the number of sessions found valid so far; note the
`else` branch pauses 500 ms even before the first valid session. -/
def pause_before_session (validSessions : Nat) : Nat :=
  if 0 < validSessions ∧ validSessions % 10 = 0 then 2000
  else 500

/-- `valid_sessions` advances only when a session yields talk urls
(ExtractFromSessions.main lines 625-633). -/
def valid_sessions_after (validSessions : Nat) (sessionValid : Bool) : Nat :=
  if sessionValid then validSessions + 1 else validSessions

/-!
## Seed URL loading
-/

/-- The state of the seed file `event_urls.txt`: absent, or present with a
list of raw lines. -/
inductive SeedFile
  | absent
  | present (lines : List Str)
deriving DecidableEq

/-- `load_urls` (ExtractAbstracts.py lines 169-177): strip each line and
keep the non-blank ones; on `FileNotFoundError` return the empty list. -/
def load_urls : SeedFile → List Str
  | .absent => []
  | .present lines => (lines.map pyStrip).filter (fun l => !l.isEmpty)

/-- ExtractAbstracts.main (lines 182-186): `if not urls: ... return` — with
no urls the run exits before the processing loop; `none` models that exit. -/
def main_candidate_urls (f : SeedFile) : Option (List Str) :=
  let urls := load_urls f
  if urls.isEmpty then none else some urls

/-- Two-digit formatting `f"{num:02d}"` for `num` in 1..99. -/
def two_digit (n : Nat) : Str :=
  [Char.ofNat (48 + n / 10), Char.ofNat (48 + n % 10)]

/-- The url pool built by the combinatorial fallback of
`load_session_urls` (ExtractFromSessions.py lines 422-434): month MAR,
letters A-Z, numbers 01-99, two url forms each, in generation order. -/
def generated_url_pool : List Str :=
  ["MAR".toList].flatMap (fun month =>
    "ABCDEFGHIJKLMNOPQRSTUVWXYZ".toList.flatMap (fun letter =>
      (List.range 99).flatMap (fun i =>
        ["https://summit.aps.org/smt/2026/events/".toList ++
           (month ++ '-' :: letter :: two_digit (i + 1)),
         "https://summit.aps.org/events/".toList ++
           (month ++ '-' :: letter :: two_digit (i + 1))])))

/-- The combinatorial fallback result: `sorted(set(session_urls))`
(ExtractFromSessions.py line 436). -/
def generated_session_urls : List Str :=
  generated_url_pool.dedup.insertionSort (· ≤ ·)

/-- `load_session_urls` (ExtractFromSessions.py lines 413-436): same line
loading as `load_urls`, but a missing file degrades to the combinatorial
generation instead of an empty list. -/
def load_session_urls : SeedFile → List Str
  | .absent => generated_session_urls
  | .present lines => load_urls (.present lines)

/-!
## Challenge gate
-/

/-- The polling loop shared by the challenge waits: at each poll advance the
clock by `interval`, then re-inspect; stop with success as soon as the
blocked signature is gone, and stop with failure once the poll budget is
spent.  `blocked t` abstracts the re-inspection of title and markup at
elapsed time `t`.  The sources run `while waited < max_wait` with `waited`
advancing by `interval` from 0, which performs exactly
`max_wait / interval` polls. -/
def gate_poll (blocked : Nat → Bool) (interval : Nat) : Nat → Nat → Nat × Bool
  | 0, waited => (waited, false)
  | polls + 1, waited =>
    let w := waited + interval
    if blocked w then gate_poll blocked interval polls w else (w, true)

/-- Outcome of the session/talk challenge gate.  `failed` records the
elapsed wait in milliseconds and the elapsed-seconds label
(`max_wait // 1000`) stamped into the diagnostic snapshot filename
`..._FAILED_after_{max_wait//1000}s.html` that the source writes together
with the detected challenge variant before telling the caller to skip. -/
inductive GateOutcome
  | cleared (waitedMs : Nat)
  | failed (waitedMs : Nat) (snapshotLabelSeconds : Nat)
deriving DecidableEq

/-- Wait budget of the session and talk gates
(ExtractFromSessions.py lines 257-258 and 701-702): 60000 ms. -/
def session_max_wait : Nat := 60000

/-- Poll interval of the session and talk gates: 3000 ms. -/
def session_check_interval : Nat := 3000

/-- The session/talk challenge gate of ExtractFromSessions.py
(lines 253-320): poll every 3 s for up to 60 s; if the loop never saw the
signature clear, re-inspect once more, and if still blocked, write the
labelled snapshot and fail (the caller then skips the url); otherwise the
gate clears. -/
def pass_gate (blocked : Nat → Bool) : GateOutcome :=
  let r := gate_poll blocked session_check_interval
    (session_max_wait / session_check_interval) 0
  if r.2 then .cleared r.1
  else if blocked r.1 then .failed r.1 (session_max_wait / 1000)
  else .cleared r.1

/-- `extract_talks_from_session` around its gate: on a failed gate it
returns the empty list (`return []`, line 314), i.e. the url is skipped
without raising; on a cleared gate it proceeds with the talks the page
yields. -/
def extract_talks_result (blocked : Nat → Bool) (talks : List Str) : List Str :=
  match pass_gate blocked with
  | .failed _ _ => []
  | .cleared _ => talks

/-- What follows the schedule-page challenge wait of
WebScraper.collect_all_event_urls. -/
inductive ScheduleGateFollowup
  | skippedUrl
  | proceededWithContent (waitedS : Nat)
deriving DecidableEq

/-- Wait budget of the schedule-page challenge wait
(WebScraper.py lines 226-228): 30 s, polled every 2 s. -/
def ws_max_wait : Nat := 30

/-- Poll interval of the schedule-page challenge wait: 2 s. -/
def ws_check_interval : Nat := 2

/-- The schedule-page challenge wait of WebScraper.collect_all_event_urls
(lines 221-250): poll every 2 s for up to 30 s; whether or not the
signature ever clears, the function then falls through to the scraping
strategies on the current page content — there is no skip, no raise and no
snapshot write in this path (the only snapshot in this function is the
zero-discovery one at line 642). -/
def ws_challenge_wait (blocked : Nat → Bool) : ScheduleGateFollowup :=
  let r := gate_poll blocked ws_check_interval (ws_max_wait / ws_check_interval) 0
  .proceededWithContent r.1

/-!
## URL discovery output
-/

/-- The output step shared by the discovery functions
(WebScraper.collect_all_event_urls line 646,
ExtractFilteredSessions.extract_session_urls_from_page line 289): the urls
accumulated into a set by the strategies are returned as `sorted(set)`.
`candidates` is the stream of urls the strategies inserted, in insertion
order; the set drops duplicates and `sorted` orders lexicographically. -/
def collect_all_event_urls (candidates : List Str) : List Str :=
  candidates.dedup.insertionSort (· ≤ ·)

/-!
## Helper lemmas
-/

theorem strategy1_ok {d : Doc} {t : Str} (h : strategy1 d = some t) :
    s12_ok t = true := by
  unfold strategy1 at h
  split at h
  · exact List.find?_some h
  · exact absurd h (by simp)

theorem strategy2_ok {d : Doc} {t : Str} (h : strategy2 d = some t) :
    s12_ok t = true :=
  List.find?_some h

theorem strategy3_ok {d : Doc} {t : Str} (h : strategy3 d = some t) :
    s3_ok t = true :=
  List.find?_some h

theorem s12_ok_bounds {t : Str} (h : s12_ok t = true) :
    50 < t.length ∧ t.length < 5000 := by
  simp only [s12_ok, Bool.and_eq_true, decide_eq_true_eq] at h
  exact ⟨h.1.2, h.2⟩

theorem s3_ok_bound {t : Str} (h : s3_ok t = true) : 50 < t.length := by
  simp only [s3_ok, Bool.and_eq_true, decide_eq_true_eq] at h
  exact h.2

theorem extract_abstract_eq (d : Doc) (u : Str) :
    (extract_talk_fields d u).abstract = resolve_abstract d := rfl

theorem s3_ok_of {t : Str} (h : 50 < t.length) : s3_ok t = true := by
  unfold s3_ok
  cases t with
  | nil => simp at h
  | cons c ts =>
    simp only [List.isEmpty_cons, Bool.not_false, Bool.true_and,
      decide_eq_true_eq]
    exact h

/-!
## Claim theorems
-/

/-- Claim C4: the keyword classifier is a pure boolean function that returns
true exactly when the case-folded concatenation of title and abstract
contains some vocabulary term as a substring; matching is case-insensitive
(a title containing TRANSMON classifies positive, as does the title
"Novel Transmon Readout Architecture"), and a pair containing no term
classifies negative. -/
theorem classifier_keyword_match :
    (∀ title abstract : Str,
      is_superconducting_qubit_related title abstract = true ↔
        ∃ k ∈ SUPERCONDUCTING_QUBIT_KEYWORDS,
          k <:+: pyLower (title ++ ' ' :: abstract)) ∧
    is_superconducting_qubit_related
      "Novel Transmon Readout Architecture".toList [] = true ∧
    is_superconducting_qubit_related "TRANSMON".toList [] = true ∧
    is_superconducting_qubit_related "Topology of Photonic Crystals".toList
      "We study band gaps.".toList = false := by
  refine ⟨?_, by decide, by decide, by decide⟩
  intro title abstract
  simp only [is_superconducting_qubit_related, List.any_eq_true,
    contains_sub_iff_infix]

/-- Claim C10: `extract_talk_fields` is total on the document abstraction
and every url, and returns a record with exactly the four fields url, title,
authors, abstract, the url passed through unchanged and the three text
fields possibly empty strings. -/
theorem extract_talk_fields_shape (d : Doc) (url : Str) :
    extract_talk_fields d url =
      { url := url, title := guess_text d.titleCandidates,
        authors := resolve_authors d, abstract := resolve_abstract d } ∧
    (extract_talk_fields d url).url = url :=
  ⟨rfl, rfl⟩

/-- Claim C2: when the heading-anchored strategy 1 produces an in-bounds
abstract, it wins over whatever strategy 4 would produce — the cascade
returns the strategy 1 text, which differs from the strategy 4 text — and
abstract resolution is unaffected by the title candidates. -/
theorem abstract_cascade_priority (d : Doc) (url s1txt s4txt : Str)
    (h1 : strategy1 d = some s1txt) (_h4 : strategy4 d = some s4txt)
    (hne : s1txt ≠ s4txt) :
    (extract_talk_fields d url).abstract = s1txt ∧
    (extract_talk_fields d url).abstract ≠ s4txt ∧
    (∀ tc : List Str,
      (extract_talk_fields { d with titleCandidates := tc } url).abstract =
        (extract_talk_fields d url).abstract) := by
  have habs : (extract_talk_fields d url).abstract = s1txt := by
    simp [extract_talk_fields, resolve_abstract, h1]
  refine ⟨habs, by rw [habs]; exact hne, ?_⟩
  intro tc
  simp [extract_talk_fields, resolve_abstract, strategy1, strategy2,
    strategy3, strategy4]

/-- Concrete document for the cascade-priority witness: strategy 1 yields 60
copies of a, strategy 4 would yield 60 copies of b. -/
def c2_doc : Doc :=
  { titleCandidates := [], s1_heading := true,
    s1_candidates := [List.replicate 60 'a'], s2_candidates := [],
    s3_candidates := [], s4_match := some (List.replicate 60 'b'),
    authorsByPattern := none, authorSiblings := [] }

theorem abstract_cascade_priority_witness :
    (extract_talk_fields c2_doc []).abstract = List.replicate 60 'a' :=
  (abstract_cascade_priority c2_doc [] (List.replicate 60 'a')
    (List.replicate 60 'b') (by decide) (by decide) (by decide)).1

/-- Claim C3: a record is kept if and only if its title is non-empty, longer
than 10 characters and different from the placeholder "Just a moment...";
in particular the placeholder itself is rejected although its length 16
exceeds the minimum. -/
theorem record_validity_gate (recs : List TalkRecord) (rec : TalkRecord) :
    (rec ∈ persist_rows recs ↔
      rec ∈ recs ∧ rec.title ≠ [] ∧ 10 < rec.title.length ∧
        rec.title ≠ JUST_A_MOMENT) ∧
    accept_record (TalkRecord.mk [] JUST_A_MOMENT [] []) = false ∧
    10 < JUST_A_MOMENT.length := by
  refine ⟨?_, by decide, by decide⟩
  simp [persist_rows, List.mem_filter, accept_record, and_assoc]

/-- Claim C5: the per-session JSON append is idempotent in the source url —
appending the same record twice stores it once — and every document built by
such appends has pairwise distinct urls. -/
theorem append_talk_idempotent :
    (∀ (existing : List TalkRecord) (rec : TalkRecord),
      append_talk (append_talk existing rec) rec = append_talk existing rec) ∧
    (∀ recs : List TalkRecord,
      ((recs.foldl append_talk []).map TalkRecord.url).Nodup) ∧
    (∀ rec : TalkRecord,
      ((append_talk (append_talk [] rec) rec).filter
        (fun t => t.url == rec.url)).length = 1) := by
  have h1 : ∀ (existing : List TalkRecord) (rec : TalkRecord),
      append_talk (append_talk existing rec) rec = append_talk existing rec := by
    intro existing rec
    unfold append_talk
    by_cases h : existing.any (fun t => t.url == rec.url) = true
    · simp [h]
    · simp only [Bool.not_eq_true] at h
      simp [h]
  have hstep : ∀ (l : List TalkRecord) (rec : TalkRecord),
      (l.map TalkRecord.url).Nodup →
        ((append_talk l rec).map TalkRecord.url).Nodup := by
    intro l rec hl
    unfold append_talk
    by_cases h : l.any (fun t => t.url == rec.url) = true
    · simpa [h] using hl
    · simp only [Bool.not_eq_true] at h
      have hmem : rec.url ∉ l.map TalkRecord.url := by
        intro hc
        rcases List.mem_map.mp hc with ⟨t, ht, hurl⟩
        have := List.any_eq_false.mp h t ht
        simp [hurl] at this
      simp [h, List.nodup_append, hl, hmem]
  refine ⟨h1, ?_, ?_⟩
  · have hfold : ∀ (recs : List TalkRecord) (l : List TalkRecord),
        (l.map TalkRecord.url).Nodup →
          ((recs.foldl append_talk l).map TalkRecord.url).Nodup := by
      intro recs
      induction recs with
      | nil => intro l hl; simpa using hl
      | cons r rs ih =>
        intro l hl
        exact ih (append_talk l r) (hstep l r hl)
    intro recs
    exact hfold recs [] (by simp)
  · intro rec
    simp [append_talk]

/-- Concrete document refuting the uniform length bound of the cascade: no
abstract heading, no containers, no regex match, and a single label-adjacent
sibling text of 6000 characters, which strategy 3 accepts verbatim. -/
def c1_doc : Doc :=
  { titleCandidates := [], s1_heading := false, s1_candidates := [],
    s2_candidates := [], s3_candidates := [List.replicate 6000 'a'],
    s4_match := none, authorsByPattern := none, authorSiblings := [] }

theorem abstract_length_counterexample :
    (extract_talk_fields c1_doc []).abstract.length = 6000 ∧
    ¬((extract_talk_fields c1_doc []).abstract = [] ∨
      (50 < (extract_talk_fields c1_doc []).abstract.length ∧
        (extract_talk_fields c1_doc []).abstract.length ≤ 5000)) := by
  have hlen : (List.replicate 6000 'a').length = 6000 :=
    List.length_replicate 6000 'a'
  have hne : List.replicate 6000 'a' ≠ [] := by
    intro hc
    have hc' := congrArg List.length hc
    rw [hlen] at hc'
    simp at hc'
  have hok : s3_ok (List.replicate 6000 'a') = true :=
    s3_ok_of (by rw [hlen]; norm_num)
  have hcands : c1_doc.s3_candidates = [List.replicate 6000 'a'] := rfl
  have hs3 : strategy3 c1_doc = some (List.replicate 6000 'a') := by
    unfold strategy3
    rw [hcands, List.find?_cons_of_pos _ hok]
  have hs1 : strategy1 c1_doc = none := rfl
  have hs2 : strategy2 c1_doc = none := rfl
  have habs : resolve_abstract c1_doc = List.replicate 6000 'a' := by
    unfold resolve_abstract
    rw [hs1, hs2, hs3]
  rw [extract_abstract_eq, habs, hlen]
  refine ⟨rfl, ?_⟩
  simp only [not_or]
  exact ⟨hne, by omega⟩

/-- Claim C1 (amended): every abstract the cascade returns is empty, or was
produced by strategy 1 or 2 with length strictly between 50 and 5000, or by
strategy 3 with length above 50 but no upper bound, or by strategy 4 with
length at most 2000 but no lower bound. -/
theorem abstract_length_policy (d : Doc) (url : Str) :
    (extract_talk_fields d url).abstract = [] ∨
    ((strategy1 d = some (extract_talk_fields d url).abstract ∨
      (strategy1 d = none ∧
        strategy2 d = some (extract_talk_fields d url).abstract)) ∧
      50 < (extract_talk_fields d url).abstract.length ∧
      (extract_talk_fields d url).abstract.length < 5000) ∨
    (strategy3 d = some (extract_talk_fields d url).abstract ∧
      50 < (extract_talk_fields d url).abstract.length) ∨
    (strategy4 d = some (extract_talk_fields d url).abstract ∧
      (extract_talk_fields d url).abstract.length ≤ 2000) := by
  show resolve_abstract d = [] ∨
    ((strategy1 d = some (resolve_abstract d) ∨
      (strategy1 d = none ∧ strategy2 d = some (resolve_abstract d))) ∧
      50 < (resolve_abstract d).length ∧ (resolve_abstract d).length < 5000) ∨
    (strategy3 d = some (resolve_abstract d) ∧
      50 < (resolve_abstract d).length) ∨
    (strategy4 d = some (resolve_abstract d) ∧
      (resolve_abstract d).length ≤ 2000)
  cases hs1 : strategy1 d with
  | some t =>
    have hab : resolve_abstract d = t := by
      unfold resolve_abstract
      rw [hs1]
    have hb := s12_ok_bounds (strategy1_ok hs1)
    rw [hab]
    exact Or.inr (Or.inl ⟨Or.inl rfl, hb.1, hb.2⟩)
  | none =>
    cases hs2 : strategy2 d with
    | some t =>
      have hab : resolve_abstract d = t := by
        unfold resolve_abstract
        rw [hs1, hs2]
      have hb := s12_ok_bounds (strategy2_ok hs2)
      rw [hab]
      exact Or.inr (Or.inl ⟨Or.inr ⟨rfl, rfl⟩, hb.1, hb.2⟩)
    | none =>
      cases hs3 : strategy3 d with
      | some t =>
        have hab : resolve_abstract d = t := by
          unfold resolve_abstract
          rw [hs1, hs2, hs3]
        rw [hab]
        exact Or.inr (Or.inr (Or.inl
          ⟨rfl, s3_ok_bound (strategy3_ok hs3)⟩))
      | none =>
        cases hs4 : strategy4 d with
        | some t =>
          have hab : resolve_abstract d = t := by
            unfold resolve_abstract
            rw [hs1, hs2, hs3, hs4]
          rcases Option.map_eq_some'.mp hs4 with ⟨m, _, hm⟩
          rw [hab]
          refine Or.inr (Or.inr (Or.inr ⟨rfl, ?_⟩))
          rw [← hm]
          exact List.length_take_le 2000 m
        | none =>
          have hab : resolve_abstract d = [] := by
            unfold resolve_abstract
            rw [hs1, hs2, hs3, hs4]
          rw [hab]
          exact Or.inl rfl

/-- Claim C6 counterexample: in ExtractAbstracts.main the pacing counter is
the number of accepted records, so an attempted visit whose record is
rejected leaves it unchanged, and ten fruitless attempts in a row still pay
no pause at all. -/
theorem pacing_counter_counterexample :
    rows_len_after_visit 0 false = 0 ∧
    rows_len_after_visit 0 false ≠ 0 + 1 ∧
    (List.replicate 10 false).foldl rows_len_after_visit 0 = 0 ∧
    pause_before_visit_abstracts
      ((List.replicate 10 false).foldl rows_len_after_visit 0) = 0 := by
  decide

/-- Claim C6 (amended): only WebScraper.main paces by the attempt index,
with the long pause exactly on every 10th attempt after the first and the
short pause on the other attempts after the first; the counters of
ExtractAbstracts.main and ExtractFromSessions.main advance only on an
accepted record or a valid session respectively, and the session loop pays
the short pause even before the first valid session. -/
theorem pacing_policy :
    (∀ idx, 1 < idx ∧ idx % 10 = 0 → pause_before_visit_webscraper idx = 2000) ∧
    (∀ idx, 1 < idx ∧ idx % 10 ≠ 0 → pause_before_visit_webscraper idx = 500) ∧
    (∀ idx, idx ≤ 1 → pause_before_visit_webscraper idx = 0) ∧
    (∀ n, rows_len_after_visit n true = n + 1) ∧
    (∀ n, rows_len_after_visit n false = n) ∧
    (∀ n, valid_sessions_after n true = n + 1) ∧
    (∀ n, valid_sessions_after n false = n) ∧
    pause_before_session 0 = 500 := by
  refine ⟨?_, ?_, ?_, fun n => rfl, fun n => rfl, fun n => rfl, fun n => rfl,
    rfl⟩
  · intro idx h
    unfold pause_before_visit_webscraper
    rw [if_pos h]
  · intro idx h
    unfold pause_before_visit_webscraper
    rw [if_neg (by tauto), if_pos h.1]
  · intro idx h
    unfold pause_before_visit_webscraper
    rw [if_neg (by omega), if_neg (by omega)]

theorem pacing_policy_witness :
    pause_before_visit_webscraper 10 = 2000 ∧
    pause_before_visit_webscraper 5 = 500 ∧
    pause_before_visit_webscraper 1 = 0 :=
  ⟨pacing_policy.1 10 (by decide), pacing_policy.2.1 5 (by decide),
    pacing_policy.2.2.1 1 (by decide)⟩

/-- Claim C7 counterexample: in ExtractAbstracts an absent seed file yields
an empty url list and the run exits before the processing loop, instead of
degrading to combinatorial generation. -/
theorem seed_absent_counterexample :
    load_urls .absent = [] ∧ main_candidate_urls .absent = none :=
  ⟨rfl, rfl⟩

/-- A url the combinatorial fallback always generates. -/
def sample_generated_url : Str :=
  "https://summit.aps.org/smt/2026/events/".toList ++
    ("MAR".toList ++ '-' :: 'A' :: two_digit 1)

/-- Claim C7 (amended): only ExtractFromSessions degrades to combinatorial
generation when the seed file is absent, and its generated candidate list is
non-empty; ExtractAbstracts instead loads an empty list and its run exits;
blank lines of a present seed file are ignored by both loaders. -/
theorem seed_fallback_policy (l₁ l₂ : List Str) (blank : Str)
    (hblank : pyStrip blank = []) :
    load_session_urls .absent = generated_session_urls ∧
    sample_generated_url ∈ load_session_urls .absent ∧
    main_candidate_urls .absent = none ∧
    load_urls (.present (l₁ ++ blank :: l₂)) = load_urls (.present (l₁ ++ l₂)) := by
  refine ⟨rfl, ?_, rfl, ?_⟩
  · have hpool : sample_generated_url ∈ generated_url_pool := by
      unfold generated_url_pool
      refine List.mem_flatMap.mpr ⟨"MAR".toList, by simp, ?_⟩
      refine List.mem_flatMap.mpr ⟨'A', by decide, ?_⟩
      refine List.mem_flatMap.mpr ⟨0, by simp, ?_⟩
      exact List.mem_cons_self _ _
    show sample_generated_url ∈ generated_session_urls
    unfold generated_session_urls
    rw [(List.perm_insertionSort _ _).mem_iff]
    exact List.mem_dedup.mpr hpool
  · simp only [load_urls, List.map_append, List.map_cons, List.filter_append,
      List.filter_cons, hblank]
    simp

theorem seed_fallback_policy_witness :
    load_urls (.present ([] ++ "  ".toList :: ["u".toList])) =
      load_urls (.present ([] ++ ["u".toList])) :=
  (seed_fallback_policy [] ["u".toList] "  ".toList (by decide)).2.2.2

/-- Under a signature that never clears, the polling loop spends its whole
budget: `polls` polls of `interval` each, ending unsuccessful. -/
theorem gate_poll_always_blocked (blocked : Nat → Bool)
    (h : ∀ t, blocked t = true) (interval : Nat) :
    ∀ polls waited : Nat,
      gate_poll blocked interval polls waited =
        (waited + polls * interval, false) := by
  intro polls
  induction polls with
  | zero => intro waited; simp [gate_poll]
  | succ n ih =>
    intro waited
    simp only [gate_poll, h, if_true]
    rw [ih]
    congr 1
    ring

/-- Claim C8 (amended): the session/talk gate of ExtractFromSessions fails
after exactly its 60 s budget (20 polls of 3 s) when the signature never
clears, records the 60-second snapshot label, and the caller skips the url
by returning no talks; the schedule-page wait of WebScraper, by contrast,
proceeds with the interstitial content (see the counterexample). -/
theorem session_gate_timeout (blocked : Nat → Bool)
    (h : ∀ t, blocked t = true) (talks : List Str) :
    pass_gate blocked = .failed 60000 60 ∧
    extract_talks_result blocked talks = [] := by
  have hp := gate_poll_always_blocked blocked h session_check_interval
    (session_max_wait / session_check_interval) 0
  have hgate : pass_gate blocked = .failed 60000 60 := by
    unfold pass_gate
    rw [hp]
    simp [h, session_max_wait, session_check_interval]
  refine ⟨hgate, ?_⟩
  unfold extract_talks_result
  rw [hgate]

theorem session_gate_timeout_witness :
    pass_gate (fun _ => true) = .failed 60000 60 ∧
    extract_talks_result (fun _ => true) [] = [] :=
  session_gate_timeout (fun _ => true) (fun _ => rfl) []

/-- Claim C8 counterexample: the schedule-page challenge wait of
WebScraper.collect_all_event_urls spends its 30 s budget and then proceeds
with the interstitial content — it never tells the caller to skip. -/
theorem schedule_gate_counterexample :
    ws_challenge_wait (fun _ => true) = .proceededWithContent 30 ∧
    ws_challenge_wait (fun _ => true) ≠ .skippedUrl := by
  decide

/-- Claim C9: discovery output is duplicate-free and lexicographically
sorted, and two traversals of an identical document state — the same set of
candidate urls, whatever the insertion order and multiplicity — yield the
same list. -/
theorem discovery_sorted_deterministic (c c' : List Str)
    (h : c.toFinset = c'.toFinset) :
    (collect_all_event_urls c).Sorted (· ≤ ·) ∧
    (collect_all_event_urls c).Nodup ∧
    collect_all_event_urls c = collect_all_event_urls c' := by
  have hsort : ∀ l : List Str, (collect_all_event_urls l).Sorted (· ≤ ·) :=
    fun l => List.sorted_insertionSort _ _
  refine ⟨hsort c, ?_, ?_⟩
  · exact ((List.perm_insertionSort _ _).nodup_iff).mpr (List.nodup_dedup c)
  · have hperm : List.Perm c.dedup c'.dedup :=
      List.toFinset_eq_iff_perm_dedup.mp h
    have hp : List.Perm (collect_all_event_urls c) (collect_all_event_urls c') :=
      ((List.perm_insertionSort _ _).trans hperm).trans
        (List.perm_insertionSort _ _).symm
    exact List.eq_of_perm_of_sorted hp (hsort c) (hsort c')

theorem discovery_sorted_deterministic_witness :
    collect_all_event_urls ["b".toList, "a".toList, "a".toList] =
      collect_all_event_urls ["a".toList, "b".toList] :=
  (discovery_sorted_deterministic ["b".toList, "a".toList, "a".toList]
    ["a".toList, "b".toList] (by decide)).2.2

end APS
